import Mathlib

/-!
Verification of the core logic of `dashboard.py` (farmer-monitoring dashboard).

The development shallowly embeds the parts of the script with algorithmic
content:

* `load_survey_data` (lines 57-82): header resolution against ordered
  candidate lists, renaming, day-first date parsing with coercion of
  failures, upper-casing of the village column, and dropping of records
  with absent dates.  Tables are header lists plus rows of cells.
* the tab-1 pipeline (lines 161-247): date-range validation, date filter,
  group filter, individual-village filter, KPI percentage, per-village
  summary with zero-fill, and the per-day/cumulative time series.
* the tab-3 farm-polygon selection and viewport (lines 267-330).

Machine reals of the KPI are modelled with `ℚ`; pandas timestamps are
modelled as integers (seconds), with `.dt.date` as flooring division by
86400.  Pandas raising behaviour (duplicate column labels produced by
`rename`, the explicit `raise` on unresolved columns) is modelled with
`Except`.
-/

/-- A cell of a pandas column: a string, an already-parsed timestamp, or a
missing value (NaN/NaT).  `pd.read_csv` yields strings or NaN for the
columns this script touches. -/
inductive Cell where
  | str (s : String)
  | date (t : Int)
  | null
deriving DecidableEq, Repr

/-- A raw table: column labels plus rows of cells (row i, column j aligned
with `headers`). -/
structure RawTable where
  headers : List String
  rows : List (List Cell)
deriving DecidableEq, Repr

/-- Errors of `load_survey_data`, modelling the `raise` on unresolved
columns (line 72, which carries the actual header list) and the failure
pandas produces when `rename` creates duplicate `Date`/`Village` labels. -/
inductive LoadError where
  | missingColumns (headers : List String)
  | duplicateColumn (name : String)
deriving DecidableEq, Repr

/-- Line 62: ordered candidate names for the canonical `Date` column. -/
def dateCandidates : List String := ["today", "Date", "date", "Fecha"]

/-- Line 63: ordered candidate names for the canonical `Village` column. -/
def villageCandidates : List String := ["village", "Village", "Aldea", "Comunidad"]

/-- Lines 61-64: the `column_map` of canonical field to candidate list. -/
def columnMap : List (String × List String) :=
  [("Date", dateCandidates), ("Village", villageCandidates)]

/-- Lines 67-70: the inner loop — the first candidate present among the
headers (`for name in possible_names: if name in df.columns: ...; break`). -/
def findFirstColumn (cands headers : List String) : Option String :=
  cands.find? (fun c => headers.contains c)

/-- Lines 65-70: the outer loop building `found_columns` as an association
list from canonical field name to the resolved header. -/
def foundColumns (headers : List String) : List (String × String) :=
  columnMap.foldl
    (fun acc p =>
      match findFirstColumn p.2 headers with
      | some name => acc ++ [(p.1, name)]
      | none => acc)
    []

/-- Lines 74-75: `rename_dict` inverted from `found_columns`, applied to one
header (`fd`/`fv` are the resolved `Date`/`Village` headers). -/
def renameHeader (fd fv h : String) : String :=
  if h = fd then "Date" else if h = fv then "Village" else h

/-- Line 76 for one cell: `pd.to_datetime(-, dayfirst=True, errors="coerce")`.
Strings are parsed day-first; already-parsed timestamps pass through;
anything unparseable coerces to NaT.  The day ordinal `((y*12+(m-1))*31+(d-1))`
abstracts civil-calendar arithmetic (it is injective on valid d/m/y and
midnight-aligned), which no claim depends on. -/
def splitSlash : List Char → List (List Char)
  | [] => [[]]
  | c :: rest =>
      let r := splitSlash rest
      if c = '/' then [] :: r
      else (c :: r.headD []) :: r.tail

/-- Digits of a numeric field to its value (`None` on empty or non-digit
input), the arithmetic core of the string-to-number conversion. -/
def charsToNat? (l : List Char) : Option Nat :=
  if l = [] then none
  else if l.all (fun c => c.isDigit) then
    some (l.foldl (fun n c => n * 10 + (c.toNat - 48)) 0)
  else none

def parseDayFirst (s : String) : Option Int :=
  match splitSlash s.data with
  | [ds, ms, ys] =>
    match charsToNat? ds, charsToNat? ms, charsToNat? ys with
    | some d, some m, some y =>
        if 1 ≤ d ∧ d ≤ 31 ∧ 1 ≤ m ∧ m ≤ 12 then
          some (((((y * 12) + (m - 1)) * 31) + (d - 1)) * 86400 : Nat)
        else none
    | _, _, _ => none
  | _ => none

/-- Line 76: the elementwise action of `pd.to_datetime(..., errors="coerce")`. -/
def toDatetimeCell : Cell → Cell
  | Cell.str s =>
      match parseDayFirst s with
      | some t => Cell.date t
      | none => Cell.null
  | Cell.date t => Cell.date t
  | Cell.null => Cell.null

/-- One character of Python `str.upper()` (ASCII range; identity elsewhere,
which is all the village names of this project use). -/
def charUpper (c : Char) : Char :=
  if 97 ≤ c.toNat ∧ c.toNat ≤ 122 then Char.ofNat (c.toNat - 32) else c

/-- Python `str.upper()` on one string. -/
def strUpper (s : String) : String := ⟨s.data.map charUpper⟩

/-- Line 77: the elementwise action of `.str.upper()` on an object column —
strings are upper-cased, non-string values become NaN. -/
def upperCell : Cell → Cell
  | Cell.str s => Cell.str (strUpper s)
  | _ => Cell.null

/-- `notna` on the `Date` column (line 78 keeps exactly these rows). -/
def isValidDate : Cell → Bool
  | Cell.date _ => true
  | _ => false

/-- Lines 76-77 applied to one row, given the positions of the renamed
`Date` and `Village` columns: write the parsed date, then write the
upper-cased village (reading the row as left by the date write, as the
script mutates the frame in place). -/
def transformRow (dIdx vIdx : Nat) (r : List Cell) : List Cell :=
  let r1 := r.set dIdx (toDatetimeCell (r.getD dIdx Cell.null))
  r1.set vIdx (upperCell (r1.getD vIdx Cell.null))

/-- Lines 74-79 once both columns resolved to `fd`/`fv`: rename the headers,
then parse dates, upper-case villages and drop rows with absent dates.
If the rename leaves more than one `Date` (or `Village`) label —
e.g. the input has both `today` and `Date` — the subsequent column
operations raise in pandas; that is the `duplicateColumn` error. -/
def normalizeWith (fd fv : String) (t : RawTable) : Except LoadError RawTable :=
  let hs := t.headers.map (renameHeader fd fv)
  if hs.count "Date" ≠ 1 then Except.error (LoadError.duplicateColumn "Date")
  else if hs.count "Village" ≠ 1 then Except.error (LoadError.duplicateColumn "Village")
  else
    let dIdx := hs.findIdx (fun h => h = "Date")
    let vIdx := hs.findIdx (fun h => h = "Village")
    Except.ok ⟨hs, (t.rows.map (transformRow dIdx vIdx)).filter
      (fun r => isValidDate (r.getD dIdx Cell.null))⟩

/-- Lines 61-79 of `load_survey_data`, minus the file read: resolve the two
canonical columns, fail with the header list if either is unresolved
(line 71-72), otherwise rename and normalize. -/
def normalizeSurvey (t : RawTable) : Except LoadError RawTable :=
  match List.lookup "Date" (foundColumns t.headers),
        List.lookup "Village" (foundColumns t.headers) with
  | some fd, some fv => normalizeWith fd fv t
  | _, _ => Except.error (LoadError.missingColumns t.headers)

/-- Line 72: the message attached to the raised exception.  It interpolates
only the actual header list (`df.columns.tolist()`), with a fixed prefix. -/
def surveyErrorMessage (headers : List String) : String :=
  "Survey data error: Required columns not found. Found: [" ++
    String.intercalate ", " headers ++ "]"

/-- Whether `pat` starts the character list `l`. -/
def startsWithChars : List Char → List Char → Bool
  | [], _ => true
  | _ :: _, [] => false
  | p :: ps, c :: cs => p = c && startsWithChars ps cs

/-- Whether `pat` occurs as a contiguous run inside `l`. -/
def hasSubChars (pat : List Char) : List Char → Bool
  | [] => startsWithChars pat []
  | c :: tl => startsWithChars pat (c :: tl) || hasSubChars pat tl

/-- Whether `pat` occurs as a substring of `s`. -/
def strContains (s pat : String) : Bool := hasSubChars pat.toList s.toList

/-- Lines 105-134: loading the survey source into the session.  `none`
models `st.stop()` — a load error, or an empty/no-valid-dates frame,
halts the session before any aggregation runs. -/
def runSession (t : RawTable) : Option RawTable :=
  match normalizeSurvey t with
  | Except.error _ => none
  | Except.ok df => if df.rows.isEmpty then none else some df

/-! ## Tab 1: the filter / aggregation pipeline (lines 161-247)

The canonical dataset reaching tab 1 is viewed as records with a timestamp
and a village name (the two columns the pipeline reads). -/

/-- One row of the canonical dataset as consumed by the tab-1 pipeline. -/
structure SurveyRecord where
  date : Int
  village : String
deriving DecidableEq, Repr

/-- Line 44. -/
def OVERALL_TARGET : Int := 120

/-- Lines 45-49. -/
def CERTIFIED_VILLAGES : List String :=
  ["ALTO ANDINO", "ALTO RIOJA", "DINAMARCA", "FLOR DE MAYO",
   "FLOR DE PRIMAVERA", "GERVACIO", "HUICUNGO", "MONTE RICO",
   "SANTA MARTHA", "VILLA HERMOSA", "EL PARAISO", "LA PERLA"]

/-- Lines 50-52. -/
def PROJECT_VILLAGES : List String :=
  ["VISTA ALEGRE", "CHUMBAQUIHUI", "KACHIPAMPA"]

/-- Line 171: `df_raw["Date"].min()` (the caller guarantees nonemptiness;
the `[]` value is never reached behind the line-132 emptiness stop). -/
def minDate : List SurveyRecord → Int
  | [] => 0
  | r :: rs => rs.foldl (fun m x => min m x.date) r.date

/-- Line 172: `df_raw["Date"].max()`. -/
def maxDate : List SurveyRecord → Int
  | [] => 0
  | r :: rs => rs.foldl (fun m x => max m x.date) r.date

/-- Lines 181-185: validation of the widget value.  A tuple that does not
have exactly two entries is replaced by the full observed range with a
sidebar warning; any two-entry tuple is used as given. -/
def validateDates (df : List SurveyRecord) (sel : List Int) : Int × Int × Bool :=
  if sel.length ≠ 2 then (minDate df, maxDate df, true)
  else (sel.getD 0 0, sel.getD 1 0, false)

/-- Line 187: the date-only filter (inclusive on both bounds). -/
def overallProgressDf (df : List SurveyRecord) (s e : Int) : List SurveyRecord :=
  df.filter (fun r => decide (s ≤ r.date ∧ r.date ≤ e))

/-- Lines 190-193: the group filter on the `village_type` radio value. -/
def applyGroupFilter (villageType : String) (df : List SurveyRecord) : List SurveyRecord :=
  if villageType = "Certified Villages" then
    df.filter (fun r => CERTIFIED_VILLAGES.contains r.village)
  else if villageType = "Project Villages" then
    df.filter (fun r => PROJECT_VILLAGES.contains r.village)
  else df

/-- Lines 194-195: the individual-village filter on the selectbox value. -/
def applyVillageFilter (selectedVillage : String) (df : List SurveyRecord) : List SurveyRecord :=
  if selectedVillage ≠ "All" then
    df.filter (fun r => decide (r.village = selectedVillage))
  else df

/-- Lines 188-195: `df_filtered`, the fully filtered dataset. -/
def dfFilteredOf (df : List SurveyRecord) (villageType selectedVillage : String)
    (s e : Int) : List SurveyRecord :=
  applyVillageFilter selectedVillage (applyGroupFilter villageType (overallProgressDf df s e))

/-- Line 199: `percentage_achieved`, with the guard reporting 0 rather than
dividing by a non-positive target. -/
def percentageAchieved (target : Int) (n : Nat) : ℚ :=
  if target > 0 then (n : ℚ) / (target : ℚ) else 0

/-- Lines 212-214: `village_type_map` flattened to `df_all_villages` —
every certified village tagged `Certified`, then every project village
tagged `Project` (dict insertion order; the two lists are disjoint). -/
def dfAllVillages : List (String × String) :=
  CERTIFIED_VILLAGES.map (fun v => (v, "Certified")) ++
    PROJECT_VILLAGES.map (fun v => (v, "Project"))

/-- Lines 215-218: the catalog restricted by the selected group. -/
def catalogFor (villageType : String) : List (String × String) :=
  if villageType = "Certified Villages" then
    dfAllVillages.filter (fun p => decide (p.2 = "Certified"))
  else if villageType = "Project Villages" then
    dfAllVillages.filter (fun p => decide (p.2 = "Project"))
  else dfAllVillages

/-- Line 211: `df_filtered.groupby("Village").size()` — one `(key, size)`
pair per distinct village, keys sorted ascending (pandas groupby sorts). -/
def progressByVillage (dfF : List SurveyRecord) : List (String × Nat) :=
  (List.insertionSort (· ≤ ·) (dfF.map (fun r => r.village)).dedup).map
    (fun v => (v, (dfF.map (fun r => r.village)).count v))

/-- Lines 219-220: the left merge of the restricted catalog with
`progress_by_village` on `Village`, `fillna(0)`.  The right side has
unique keys, so each catalog row picks up its count or 0. -/
def villageSummaryOf (dfF : List SurveyRecord) (villageType : String) :
    List (String × String × Nat) :=
  (catalogFor villageType).map
    (fun p => (p.1, p.2, (List.lookup p.1 (progressByVillage dfF)).getD 0))

/-- Line 227: `df_filtered["Date"].dt.date` for one record — the calendar
date with time-of-day discarded (flooring division on the timestamp). -/
def calendarDate (t : Int) : Int := t.ediv 86400

/-- Lines 227 and 236: `groupby(dt.date).size()` then `sort_values("Date")`
— one `(date, count)` pair per distinct calendar date, ascending. -/
def surveysPerDayOf (dfF : List SurveyRecord) : List (Int × Nat) :=
  (List.insertionSort (· ≤ ·) (dfF.map (fun r => calendarDate r.date)).dedup).map
    (fun d => (d, (dfF.map (fun r => calendarDate r.date)).count d))

/-- Line 237: `.cumsum()` — running sums of a column. -/
def cumsum : List Nat → List Nat
  | [] => []
  | x :: xs => x :: (cumsum xs).map (fun y => x + y)

/-- The structured outputs of one tab-1 recomputation. -/
structure Tab1Output where
  startDate : Int
  endDate : Int
  warning : Bool
  achievedInRange : Nat
  achievedInSelection : Nat
  percentage : ℚ
  villageSummary : List (String × String × Nat)
  surveysPerDay : List (Int × Nat)
  cumulative : List Nat
deriving DecidableEq, Repr

/-- Lines 161-247 in source order: validate the date range, filter, compute
the KPI metrics, the per-village summary and the time series. -/
def runTab1 (df : List SurveyRecord) (villageType selectedVillage : String)
    (selectedDates : List Int) : Tab1Output :=
  let v := validateDates df selectedDates
  let odf := overallProgressDf df v.1 v.2.1
  let dfF := applyVillageFilter selectedVillage (applyGroupFilter villageType odf)
  let spd := surveysPerDayOf dfF
  ⟨v.1, v.2.1, v.2.2,
   odf.length, dfF.length,
   percentageAchieved OVERALL_TARGET odf.length,
   villageSummaryOf dfF villageType,
   spd, cumsum (spd.map (fun p => p.2))⟩

/-! ## Tab 3: farm-polygon selection and viewport (lines 267-330) -/

/-- One geometry of the shapefile: the farm identifier attribute
`What_is_th` plus the vertices of its polygon (coordinates as rationals;
`to_crs` is an external GIS call, kept abstract as a point map). -/
structure Farm where
  farmId : String
  ring : List (ℚ × ℚ)
deriving DecidableEq

/-- Lines 278-281: `gdf_to_display` — the whole collection for the
`All Farms` sentinel, otherwise the rows whose identifier matches. -/
def gdfToDisplay (gdf : List Farm) (selectedFarmId : String) : List Farm :=
  if selectedFarmId = "All Farms" then gdf
  else gdf.filter (fun f => decide (f.farmId = selectedFarmId))

/-- Outcome of the tab-3 map section.  `dataError` is never produced by the
code (there is no emptiness check on the selection); it is present so the
spec claim about it is statable.  `mapCreationError` models the `except`
at line 329 catching the failure that an empty selection causes downstream
(`total_bounds` of an empty frame is all-NaN, and folium rejects NaN
coordinates). -/
inductive Tab3Outcome where
  | viewport (centerLat centerLon : ℚ) (zoom : Nat)
  | dataError
  | mapCreationError
deriving DecidableEq

/-- Lines 283-295: reproject the selection, take `total_bounds`, centre
the map on the midpoint and pick the zoom level (12 for `All Farms`, 16
for a single farm).  An empty point set yields the caught map-creation
failure. -/
def tab3Run (proj : ℚ × ℚ → ℚ × ℚ) (gdf : List Farm) (selectedFarmId : String) : Tab3Outcome :=
  let pts := ((gdfToDisplay gdf selectedFarmId).map (fun f => f.ring.map proj)).flatten
  match pts with
  | [] => Tab3Outcome.mapCreationError
  | p :: rest =>
      let minx := rest.foldl (fun m q => min m q.1) p.1
      let maxx := rest.foldl (fun m q => max m q.1) p.1
      let miny := rest.foldl (fun m q => min m q.2) p.2
      let maxy := rest.foldl (fun m q => max m q.2) p.2
      Tab3Outcome.viewport ((miny + maxy) / 2) ((minx + maxx) / 2)
        (if selectedFarmId = "All Farms" then 12 else 16)

/-! ## Helper lemmas -/

theorem foldl_min_le (l : List SurveyRecord) (init : Int) :
    l.foldl (fun m y => min m y.date) init ≤ init ∧
      ∀ x ∈ l, l.foldl (fun m y => min m y.date) init ≤ x.date := by
  induction l generalizing init with
  | nil => simp
  | cons a t ih =>
      have h := ih (min init a.date)
      refine ⟨le_trans h.1 (min_le_left _ _), ?_⟩
      intro x hx
      rcases List.mem_cons.mp hx with rfl | hx
      · exact le_trans h.1 (min_le_right _ _)
      · exact h.2 x hx

theorem le_foldl_max (l : List SurveyRecord) (init : Int) :
    init ≤ l.foldl (fun m y => max m y.date) init ∧
      ∀ x ∈ l, x.date ≤ l.foldl (fun m y => max m y.date) init := by
  induction l generalizing init with
  | nil => simp
  | cons a t ih =>
      have h := ih (max init a.date)
      refine ⟨le_trans (le_max_left _ _) h.1, ?_⟩
      intro x hx
      rcases List.mem_cons.mp hx with rfl | hx
      · exact le_trans (le_max_right _ _) h.1
      · exact h.2 x hx

theorem minDate_le (df : List SurveyRecord) (r : SurveyRecord) (hr : r ∈ df) :
    minDate df ≤ r.date := by
  cases df with
  | nil => cases hr
  | cons a t =>
      rcases List.mem_cons.mp hr with rfl | hr
      · exact (foldl_min_le t r.date).1
      · exact (foldl_min_le t a.date).2 r hr

theorem le_maxDate (df : List SurveyRecord) (r : SurveyRecord) (hr : r ∈ df) :
    r.date ≤ maxDate df := by
  cases df with
  | nil => cases hr
  | cons a t =>
      rcases List.mem_cons.mp hr with rfl | hr
      · exact (le_foldl_max t r.date).1
      · exact (le_foldl_max t a.date).2 r hr

theorem overallProgressDf_full (df : List SurveyRecord) :
    overallProgressDf df (minDate df) (maxDate df) = df := by
  apply List.filter_eq_self.mpr
  intro r hr
  simp only [decide_eq_true_eq]
  exact ⟨minDate_le df r hr, le_maxDate df r hr⟩

theorem applyGroupFilter_sublist (vt : String) (df : List SurveyRecord) :
    List.Sublist (applyGroupFilter vt df) df := by
  unfold applyGroupFilter
  split
  · exact List.filter_sublist df
  · split
    · exact List.filter_sublist df
    · exact List.Sublist.refl df

theorem applyVillageFilter_sublist (sv : String) (df : List SurveyRecord) :
    List.Sublist (applyVillageFilter sv df) df := by
  unfold applyVillageFilter
  split
  · exact List.filter_sublist df
  · exact List.Sublist.refl df

theorem dfFilteredOf_sublist (df : List SurveyRecord) (vt sv : String) (s e : Int) :
    List.Sublist (dfFilteredOf df vt sv s e) (overallProgressDf df s e) :=
  List.Sublist.trans (applyVillageFilter_sublist sv _) (applyGroupFilter_sublist vt _)

/-! ## The claims -/

/-- C1: the KPI percentage equals `achievedInRange / target` where
`achievedInRange` counts only the date-range-filtered records; it is
unchanged under any change of the group or village selector; and a
non-positive target reports percentage 0 instead of dividing. -/
theorem kpi_percentage_spec (df : List SurveyRecord) (vt sv vt' sv' : String)
    (sel : List Int) (t : Int) (n : Nat) (ht : t ≤ 0) :
    (runTab1 df vt sv sel).percentage = (runTab1 df vt' sv' sel).percentage ∧
    (runTab1 df vt sv sel).percentage =
      ((runTab1 df vt sv sel).achievedInRange : ℚ) / (OVERALL_TARGET : ℚ) ∧
    (runTab1 df vt sv sel).achievedInRange =
      (overallProgressDf df (validateDates df sel).1 (validateDates df sel).2.1).length ∧
    percentageAchieved t n = 0 := by
  refine ⟨rfl, ?_, rfl, ?_⟩
  · simp [runTab1, percentageAchieved, OVERALL_TARGET]
  · simp only [percentageAchieved, if_neg (not_lt.mpr ht)]

/-- Witness for C1 at a concrete dataset and selector change. -/
theorem kpi_percentage_spec_witness :
    (runTab1 [⟨0, "HUICUNGO"⟩] "All" "All" []).percentage =
      (runTab1 [⟨0, "HUICUNGO"⟩] "Certified Villages" "HUICUNGO" []).percentage ∧
    (runTab1 [⟨0, "HUICUNGO"⟩] "All" "All" []).percentage =
      ((runTab1 [⟨0, "HUICUNGO"⟩] "All" "All" []).achievedInRange : ℚ) / (OVERALL_TARGET : ℚ) ∧
    (runTab1 [⟨0, "HUICUNGO"⟩] "All" "All" []).achievedInRange =
      (overallProgressDf [⟨0, "HUICUNGO"⟩] (validateDates [⟨0, "HUICUNGO"⟩] []).1
        (validateDates [⟨0, "HUICUNGO"⟩] []).2.1).length ∧
    percentageAchieved (-3) 7 = 0 :=
  kpi_percentage_spec [⟨0, "HUICUNGO"⟩] "All" "All" "Certified Villages" "HUICUNGO" []
    (-3) 7 (by decide)

/-- C4 counterexample: on the inverted two-entry range `(day 3, day 0)`
over a one-record dataset, the code keeps the inverted range as given —
no warning, no substitution of the observed range — and the KPI differs
from the unfiltered KPI, contradicting the claim. -/
theorem date_range_inverted_counterexample :
    (runTab1 [⟨86400, "HUICUNGO"⟩] "All" "All" [259200, 0]).warning = false ∧
    (runTab1 [⟨86400, "HUICUNGO"⟩] "All" "All" [259200, 0]).startDate = 259200 ∧
    (runTab1 [⟨86400, "HUICUNGO"⟩] "All" "All" [259200, 0]).endDate = 0 ∧
    (runTab1 [⟨86400, "HUICUNGO"⟩] "All" "All" [259200, 0]).achievedInRange = 0 ∧
    (runTab1 [⟨86400, "HUICUNGO"⟩] "All" "All" [259200, 0]).percentage ≠
      percentageAchieved OVERALL_TARGET
        ([⟨(86400 : Int), "HUICUNGO"⟩] : List SurveyRecord).length := by
  refine ⟨rfl, rfl, rfl, rfl, ?_⟩
  simp [runTab1, validateDates, overallProgressDf, percentageAchieved, OVERALL_TARGET]

/-- C4 amended: only a date-range value that does not have exactly two
entries (absent or partially specified) is replaced by the full observed
range of the dataset with a warning indicator, and then the KPI values
equal those computed with no date filter at all; a two-entry inverted
range is used as given. -/
theorem date_range_partial_fallback (df : List SurveyRecord) (vt sv : String)
    (sel : List Int) (hsel : sel.length ≠ 2) :
    (runTab1 df vt sv sel).warning = true ∧
    (runTab1 df vt sv sel).startDate = minDate df ∧
    (runTab1 df vt sv sel).endDate = maxDate df ∧
    (runTab1 df vt sv sel).achievedInRange = df.length ∧
    (runTab1 df vt sv sel).percentage = percentageAchieved OVERALL_TARGET df.length := by
  have hv : validateDates df sel = (minDate df, maxDate df, true) := by
    simp [validateDates, hsel]
  refine ⟨?_, ?_, ?_, ?_, ?_⟩ <;>
    simp [runTab1, hv, overallProgressDf_full df]

/-- Witness for the amended C4 at a one-entry (partially specified) range. -/
theorem date_range_partial_fallback_witness :
    (runTab1 [⟨86400, "HUICUNGO"⟩] "All" "All" [0]).warning = true ∧
    (runTab1 [⟨86400, "HUICUNGO"⟩] "All" "All" [0]).startDate =
      minDate [⟨86400, "HUICUNGO"⟩] ∧
    (runTab1 [⟨86400, "HUICUNGO"⟩] "All" "All" [0]).endDate =
      maxDate [⟨86400, "HUICUNGO"⟩] ∧
    (runTab1 [⟨86400, "HUICUNGO"⟩] "All" "All" [0]).achievedInRange =
      ([⟨(86400 : Int), "HUICUNGO"⟩] : List SurveyRecord).length ∧
    (runTab1 [⟨86400, "HUICUNGO"⟩] "All" "All" [0]).percentage =
      percentageAchieved OVERALL_TARGET
        ([⟨(86400 : Int), "HUICUNGO"⟩] : List SurveyRecord).length :=
  date_range_partial_fallback [⟨86400, "HUICUNGO"⟩] "All" "All" [0] (by decide)

/-- C10: the fully filtered dataset is a sublist of the date-only filtered
dataset, so `achievedInSelection ≤ achievedInRange` for every filter spec. -/
theorem selection_subset_of_range (df : List SurveyRecord) (vt sv : String)
    (sel : List Int) :
    List.Sublist
      (dfFilteredOf df vt sv (validateDates df sel).1 (validateDates df sel).2.1)
      (overallProgressDf df (validateDates df sel).1 (validateDates df sel).2.1) ∧
    (runTab1 df vt sv sel).achievedInSelection ≤ (runTab1 df vt sv sel).achievedInRange := by
  refine ⟨dfFilteredOf_sublist df vt sv _ _, ?_⟩
  exact (dfFilteredOf_sublist df vt sv _ _).length_le

theorem lookup_map_none {β : Type} (f : String → β) (l : List String) (a : String)
    (h : a ∉ l) : List.lookup a (l.map (fun k => (k, f k))) = none := by
  induction l with
  | nil => rfl
  | cons x xs ih =>
      simp only [List.map_cons, List.lookup]
      have hx : ¬(a == x) = true := by
        simp only [beq_iff_eq]
        intro he
        exact h (he ▸ List.mem_cons_self x xs)
      rw [Bool.not_eq_true] at hx
      rw [hx]
      exact ih (fun ha => h (List.mem_cons_of_mem x ha))

theorem progressByVillage_lookup_none (dfF : List SurveyRecord) (v : String)
    (h : ∀ r ∈ dfF, r.village ≠ v) :
    List.lookup v (progressByVillage dfF) = none := by
  apply lookup_map_none
  intro hv
  have hv2 : v ∈ (dfF.map (fun r => r.village)).dedup :=
    ((List.perm_insertionSort _ _).mem_iff).mp hv
  have hv3 : v ∈ dfF.map (fun r => r.village) := List.mem_dedup.mp hv2
  rcases List.mem_map.mp hv3 with ⟨r, hr, hrv⟩
  exact h r hr hrv

/-- C2: the village-progress table has exactly one row per catalog entry
surviving the group filter — its rows project onto the restricted catalog
(the full catalog when the group selector is `All`) — and a catalog
village with no matching record in the fully filtered dataset gets an
achieved count of 0. -/
theorem village_summary_rowcount_zero_fill (df : List SurveyRecord) (vt sv : String)
    (sel : List Int) :
    (runTab1 df vt sv sel).villageSummary.length = (catalogFor vt).length ∧
    (runTab1 df vt sv sel).villageSummary.map (fun x => (x.1, x.2.1)) = catalogFor vt ∧
    catalogFor "All" = dfAllVillages ∧
    ∀ v ty, (v, ty) ∈ catalogFor vt →
      (∀ r ∈ dfFilteredOf df vt sv (validateDates df sel).1 (validateDates df sel).2.1,
        r.village ≠ v) →
      (v, ty, 0) ∈ (runTab1 df vt sv sel).villageSummary := by
  refine ⟨?_, ?_, rfl, ?_⟩
  · simp [runTab1, villageSummaryOf]
  · simp only [runTab1, villageSummaryOf, List.map_map]
    exact List.map_id _
  · intro v ty hmem hno
    have hl : List.lookup v (progressByVillage
        (dfFilteredOf df vt sv (validateDates df sel).1 (validateDates df sel).2.1)) = none :=
      progressByVillage_lookup_none _ v hno
    have : (v, ty, (List.lookup v (progressByVillage
        (dfFilteredOf df vt sv (validateDates df sel).1 (validateDates df sel).2.1))).getD 0) ∈
        (runTab1 df vt sv sel).villageSummary := by
      simpa [runTab1, villageSummaryOf, dfFilteredOf] using
        List.mem_map_of_mem (fun p => (p.1, p.2, (List.lookup p.1 (progressByVillage
          (dfFilteredOf df vt sv (validateDates df sel).1
            (validateDates df sel).2.1))).getD 0)) hmem
    simpa [hl] using this

/-- Witness for C2: on the empty dataset with the `Project Villages`
selector, the table covers the 3-entry project catalog and
`VISTA ALEGRE` is zero-filled. -/
theorem village_summary_rowcount_zero_fill_witness :
    (runTab1 [] "Project Villages" "All" []).villageSummary.length =
      (catalogFor "Project Villages").length ∧
    ("VISTA ALEGRE", "Project", 0) ∈
      (runTab1 [] "Project Villages" "All" []).villageSummary :=
  ⟨(village_summary_rowcount_zero_fill [] "Project Villages" "All" []).1,
   (village_summary_rowcount_zero_fill [] "Project Villages" "All" []).2.2.2
     "VISTA ALEGRE" "Project" (by decide) (by intro r hr; cases hr)⟩

theorem getLastD_map_add (x : Nat) (l : List Nat) (d : Nat) :
    (l.map (fun y => x + y)).getLastD (x + d) = x + l.getLastD d := by
  induction l generalizing d with
  | nil => rfl
  | cons y t ih =>
      simp only [List.map_cons, List.getLastD_cons]
      exact ih y

theorem cumsum_getLastD (l : List Nat) : (cumsum l).getLastD 0 = l.sum := by
  induction l with
  | nil => rfl
  | cons x xs ih =>
      simp only [cumsum, List.getLastD_cons, List.sum_cons]
      calc ((cumsum xs).map (fun y => x + y)).getLastD x
          = ((cumsum xs).map (fun y => x + y)).getLastD (x + 0) := by rw [Nat.add_zero]
        _ = x + (cumsum xs).getLastD 0 := getLastD_map_add x (cumsum xs) 0
        _ = x + xs.sum := by rw [ih]

theorem cumsum_sorted (l : List Nat) : List.Sorted (· ≤ ·) (cumsum l) := by
  induction l with
  | nil => exact List.sorted_nil
  | cons x xs ih =>
      simp only [cumsum, List.sorted_cons]
      constructor
      · intro b hb
        rcases List.mem_map.mp hb with ⟨y, _, rfl⟩
        exact Nat.le_add_right x y
      · exact (List.pairwise_map.mpr (ih.imp (fun h => Nat.add_le_add_left h x)))

theorem surveysPerDay_keys (dfF : List SurveyRecord) :
    (surveysPerDayOf dfF).map (fun p => p.1) =
      List.insertionSort (· ≤ ·) (dfF.map (fun r => calendarDate r.date)).dedup := by
  simp only [surveysPerDayOf, List.map_map]
  exact List.map_id _

theorem surveysPerDay_sum_counts (dfF : List SurveyRecord) :
    ((surveysPerDayOf dfF).map (fun p => p.2)).sum = dfF.length := by
  have h1 : (surveysPerDayOf dfF).map (fun p => p.2) =
      (List.insertionSort (· ≤ ·) (dfF.map (fun r => calendarDate r.date)).dedup).map
        (fun d => (dfF.map (fun r => calendarDate r.date)).count d) := by
    simp [surveysPerDayOf, List.map_map, Function.comp]
  rw [h1]
  have h2 := (List.perm_insertionSort (· ≤ ·)
    (dfF.map (fun r => calendarDate r.date)).dedup).map
      (fun d => (dfF.map (fun r => calendarDate r.date)).count d)
  rw [h2.sum_eq, List.sum_map_count_dedup_eq_length, List.length_map]

/-- C3: the time series groups the fully filtered dataset by calendar date
(time of day discarded), is sorted ascending by date, its cumulative
column is the running sum of the per-date counts (hence non-decreasing),
and its final cumulative value equals the record count of the fully
filtered dataset. -/
theorem time_series_spec (df : List SurveyRecord) (vt sv : String) (sel : List Int) :
    List.Sorted (· ≤ ·) ((runTab1 df vt sv sel).surveysPerDay.map (fun p => p.1)) ∧
    (∀ p ∈ (runTab1 df vt sv sel).surveysPerDay,
      p.2 = ((dfFilteredOf df vt sv (validateDates df sel).1
        (validateDates df sel).2.1).map (fun r => calendarDate r.date)).count p.1) ∧
    (∀ d : Int, d ∈ (runTab1 df vt sv sel).surveysPerDay.map (fun p => p.1) ↔
      d ∈ (dfFilteredOf df vt sv (validateDates df sel).1
        (validateDates df sel).2.1).map (fun r => calendarDate r.date)) ∧
    (runTab1 df vt sv sel).cumulative =
      cumsum ((runTab1 df vt sv sel).surveysPerDay.map (fun p => p.2)) ∧
    List.Sorted (· ≤ ·) (runTab1 df vt sv sel).cumulative ∧
    (runTab1 df vt sv sel).cumulative.getLastD 0 =
      (dfFilteredOf df vt sv (validateDates df sel).1 (validateDates df sel).2.1).length := by
  have hspd : (runTab1 df vt sv sel).surveysPerDay =
      surveysPerDayOf (dfFilteredOf df vt sv (validateDates df sel).1
        (validateDates df sel).2.1) := rfl
  have hcum : (runTab1 df vt sv sel).cumulative =
      cumsum ((surveysPerDayOf (dfFilteredOf df vt sv (validateDates df sel).1
        (validateDates df sel).2.1)).map (fun p => p.2)) := rfl
  refine ⟨?_, ?_, ?_, ?_, ?_, ?_⟩
  · rw [hspd, surveysPerDay_keys]
    exact List.sorted_insertionSort (· ≤ ·) _
  · intro p hp
    rw [hspd] at hp
    rcases List.mem_map.mp hp with ⟨d, _, rfl⟩
    rfl
  · intro d
    rw [hspd, surveysPerDay_keys]
    constructor
    · intro hd
      exact List.mem_dedup.mp ((List.perm_insertionSort _ _).mem_iff.mp hd)
    · intro hd
      exact (List.perm_insertionSort _ _).mem_iff.mpr (List.mem_dedup.mpr hd)
  · rw [hcum, hspd]
  · rw [hcum]
    exact cumsum_sorted _
  · rw [hcum, cumsum_getLastD, surveysPerDay_sum_counts]

/-- Witness for C3 on the three-record `HUICUNGO` dataset of the spec
example: the day-1 entry counts one record and the final cumulative value
is the filtered record count 3. -/
theorem time_series_spec_witness :
    ((1 : Int), (1 : Nat)).2 =
      ((dfFilteredOf [⟨86400, "HUICUNGO"⟩, ⟨172800, "HUICUNGO"⟩, ⟨259200, "HUICUNGO"⟩]
          "All" "All"
          (validateDates [⟨86400, "HUICUNGO"⟩, ⟨172800, "HUICUNGO"⟩, ⟨259200, "HUICUNGO"⟩] []).1
          (validateDates [⟨86400, "HUICUNGO"⟩, ⟨172800, "HUICUNGO"⟩,
            ⟨259200, "HUICUNGO"⟩] []).2.1).map
        (fun r => calendarDate r.date)).count ((1 : Int), (1 : Nat)).1 ∧
    (runTab1 [⟨86400, "HUICUNGO"⟩, ⟨172800, "HUICUNGO"⟩, ⟨259200, "HUICUNGO"⟩]
        "All" "All" []).cumulative.getLastD 0 =
      (dfFilteredOf [⟨86400, "HUICUNGO"⟩, ⟨172800, "HUICUNGO"⟩, ⟨259200, "HUICUNGO"⟩]
        "All" "All"
        (validateDates [⟨86400, "HUICUNGO"⟩, ⟨172800, "HUICUNGO"⟩, ⟨259200, "HUICUNGO"⟩] []).1
        (validateDates [⟨86400, "HUICUNGO"⟩, ⟨172800, "HUICUNGO"⟩,
          ⟨259200, "HUICUNGO"⟩] []).2.1).length :=
  ⟨(time_series_spec [⟨86400, "HUICUNGO"⟩, ⟨172800, "HUICUNGO"⟩, ⟨259200, "HUICUNGO"⟩]
      "All" "All" []).2.1 (1, 1) (by decide),
   (time_series_spec [⟨86400, "HUICUNGO"⟩, ⟨172800, "HUICUNGO"⟩, ⟨259200, "HUICUNGO"⟩]
      "All" "All" []).2.2.2.2.2⟩

theorem charUpper_idem (c : Char) : charUpper (charUpper c) = charUpper c := by
  unfold charUpper
  by_cases h : 97 ≤ c.toNat ∧ c.toNat ≤ 122
  · rw [if_pos h]
    rw [if_neg]
    intro hcontra
    have hn1 : 97 ≤ c.toNat := h.1
    have hn2 : c.toNat ≤ 122 := h.2
    set n := c.toNat with hn
    have : (Char.ofNat (n - 32)).toNat = n - 32 := by
      interval_cases n <;> decide
    omega
  · rw [if_neg h, if_neg h]

theorem strUpper_idem (s : String) : strUpper (strUpper s) = strUpper s := by
  unfold strUpper
  simp only [List.map_map]
  congr 1
  exact List.map_congr_left (fun c _ => charUpper_idem c)

theorem upperCell_idem (c : Cell) : upperCell (upperCell c) = upperCell c := by
  cases c with
  | str s => simp [upperCell, strUpper_idem]
  | date t => rfl
  | null => rfl

theorem ffc_cons (c0 : String) (cs hs : List String) :
    findFirstColumn (c0 :: cs) hs =
      if c0 ∈ hs then some c0 else findFirstColumn cs hs := by
  simp only [findFirstColumn, List.find?_cons]
  by_cases hc : c0 ∈ hs
  · have h1 : hs.contains c0 = true := List.elem_eq_true_of_mem hc
    rw [h1, if_pos hc]
  · have h1 : hs.contains c0 = false := by simp [hc]
    rw [h1, if_neg hc]

theorem ffc_mem (cands hs : List String) (c : String)
    (h : findFirstColumn cands hs = some c) : c ∈ hs := by
  unfold findFirstColumn at h
  have hp := List.find?_some h
  simp only at hp
  exact List.mem_of_elem_eq_true hp

theorem ffc_mem_cands (cands hs : List String) (c : String)
    (h : findFirstColumn cands hs = some c) : c ∈ cands := by
  unfold findFirstColumn at h
  exact List.mem_of_find?_eq_some h

theorem ffc_some_spec (cands hs : List String) (c : String)
    (h : findFirstColumn cands hs = some c) :
    ∃ i, ∃ hi : i < cands.length, cands.get ⟨i, hi⟩ = c ∧ c ∈ hs ∧
      ∀ j (hj : j < i), cands.get ⟨j, Nat.lt_trans hj hi⟩ ∉ hs := by
  induction cands with
  | nil => cases h
  | cons c0 cs ih =>
      rw [ffc_cons] at h
      by_cases hc : c0 ∈ hs
      · rw [if_pos hc] at h
        injection h with h
        subst h
        exact ⟨0, Nat.succ_pos _, rfl, hc, fun j hj => absurd hj (Nat.not_lt_zero j)⟩
      · rw [if_neg hc] at h
        obtain ⟨i, hi, hg, hmem, hearlier⟩ := ih h
        refine ⟨i + 1, Nat.succ_lt_succ hi, hg, hmem, ?_⟩
        intro j hj
        cases j with
        | zero => exact hc
        | succ j2 => exact hearlier j2 (Nat.lt_of_succ_lt_succ hj)

theorem ffc_of_first (cands hs : List String) (c : String) (i : Nat) (hi : i < cands.length)
    (hg : cands.get ⟨i, hi⟩ = c) (hmem : c ∈ hs)
    (hearlier : ∀ j (hj : j < i), cands.get ⟨j, Nat.lt_trans hj hi⟩ ∉ hs) :
    findFirstColumn cands hs = some c := by
  induction cands generalizing i with
  | nil => exact absurd hi (Nat.not_lt_zero i)
  | cons c0 cs ih =>
      rw [ffc_cons]
      cases i with
      | zero =>
          have hc0 : c0 = c := hg
          subst hc0
          rw [if_pos hmem]
      | succ j2 =>
          have hc0 : c0 ∉ hs := hearlier 0 (Nat.succ_pos j2)
          rw [if_neg hc0]
          exact ih j2 (Nat.lt_of_succ_lt_succ hi) hg
            (fun j hj => hearlier (j + 1) (Nat.succ_lt_succ hj))

theorem ffc_ext (cands h1 h2 : List String) (h : ∀ s, s ∈ h1 ↔ s ∈ h2) :
    findFirstColumn cands h1 = findFirstColumn cands h2 := by
  induction cands with
  | nil => rfl
  | cons c0 cs ih =>
      rw [ffc_cons, ffc_cons, ih]
      by_cases hc : c0 ∈ h1
      · rw [if_pos hc, if_pos ((h c0).mp hc)]
      · rw [if_neg hc, if_neg (fun hx => hc ((h c0).mpr hx))]

theorem foundColumns_lookup_date (hs : List String) :
    List.lookup "Date" (foundColumns hs) = findFirstColumn dateCandidates hs := by
  unfold foundColumns columnMap
  cases hd : findFirstColumn dateCandidates hs <;>
    cases hv : findFirstColumn villageCandidates hs <;>
      simp [List.foldl, hd, hv, List.lookup]

theorem foundColumns_lookup_village (hs : List String) :
    List.lookup "Village" (foundColumns hs) = findFirstColumn villageCandidates hs := by
  unfold foundColumns columnMap
  cases hd : findFirstColumn dateCandidates hs <;>
    cases hv : findFirstColumn villageCandidates hs <;>
      simp [List.foldl, hd, hv, List.lookup]

theorem foundColumns_ext (h1 h2 : List String) (h : ∀ s, s ∈ h1 ↔ s ∈ h2) :
    foundColumns h1 = foundColumns h2 := by
  unfold foundColumns columnMap
  simp only [List.foldl]
  rw [ffc_ext dateCandidates h1 h2 h, ffc_ext villageCandidates h1 h2 h]

theorem normalizeSurvey_eq (t : RawTable) :
    normalizeSurvey t =
      match findFirstColumn dateCandidates t.headers,
            findFirstColumn villageCandidates t.headers with
      | some fd, some fv => normalizeWith fd fv t
      | _, _ => Except.error (LoadError.missingColumns t.headers) := by
  unfold normalizeSurvey
  rw [foundColumns_lookup_date, foundColumns_lookup_village]

/-- C5: each required canonical field resolves to the first candidate of
its ordered list present in the header set (an earlier candidate wins over
every later one, and the resolved name is unique); the `found_columns`
loop resolves each field independently of the other (its entry equals the
field's own first-present candidate); and header sets with the same
members always resolve identically. -/
theorem schema_resolution_first_candidate (headers headers2 cands : List String)
    (c : String) (i : Nat) (hi : i < cands.length)
    (hg : cands.get ⟨i, hi⟩ = c) (hmem : c ∈ headers)
    (hearlier : ∀ j (hj : j < i), cands.get ⟨j, Nat.lt_trans hj hi⟩ ∉ headers)
    (hsame : ∀ s, s ∈ headers ↔ s ∈ headers2) :
    List.lookup "Date" (foundColumns headers) = findFirstColumn dateCandidates headers ∧
    List.lookup "Village" (foundColumns headers) = findFirstColumn villageCandidates headers ∧
    findFirstColumn cands headers = some c ∧
    (∀ c2, findFirstColumn cands headers = some c2 → c2 = c) ∧
    foundColumns headers = foundColumns headers2 := by
  have h3 : findFirstColumn cands headers = some c := ffc_of_first cands headers c i hi hg hmem hearlier
  refine ⟨foundColumns_lookup_date headers, foundColumns_lookup_village headers, h3, ?_, 
    foundColumns_ext headers headers2 hsame⟩
  intro c2 h2
  rw [h3] at h2
  exact (Option.some.inj h2).symm

/-- Witness for C5: among the headers `[x, date, Fecha]` the candidate
`date` wins (it precedes `Fecha` in priority order even though `today` and
`Date` are absent), and a permuted header set resolves identically. -/
theorem schema_resolution_first_candidate_witness :
    findFirstColumn dateCandidates ["x", "date", "Fecha"] = some "date" ∧
    foundColumns ["x", "date", "Fecha"] = foundColumns ["Fecha", "x", "date"] :=
  ⟨(schema_resolution_first_candidate ["x", "date", "Fecha"] ["Fecha", "x", "date"]
      dateCandidates "date" 2 (by decide) (by decide) (by decide) (by decide)
      (by intro s; simp only [List.mem_cons, List.not_mem_nil, or_false]; tauto)).2.2.1,
   (schema_resolution_first_candidate ["x", "date", "Fecha"] ["Fecha", "x", "date"]
      dateCandidates "date" 2 (by decide) (by decide) (by decide) (by decide)
      (by intro s; simp only [List.mem_cons, List.not_mem_nil, or_false]; tauto)).2.2.2.2⟩

theorem set_getD_self (l : List Cell) (i : Nat) (d : Cell) :
    l.set i (l.getD i d) = l := by
  induction l generalizing i with
  | nil => rfl
  | cons x xs ih =>
      cases i with
      | zero => simp [List.getD]
      | succ n => simpa [List.getD] using ih n

theorem getD_set_self (l : List Cell) (i : Nat) (v d : Cell) (h : i < l.length) :
    (l.set i v).getD i d = v := by
  induction l generalizing i with
  | nil => cases h
  | cons x xs ih =>
      cases i with
      | zero => rfl
      | succ n => exact ih n (Nat.lt_of_succ_lt_succ h)

theorem valid_toDatetime (c : Cell) (h : isValidDate c = true) : toDatetimeCell c = c := by
  cases c with
  | date t => rfl
  | str s => cases h
  | null => cases h

theorem transformRow_def (dIdx vIdx : Nat) (r : List Cell) :
    transformRow dIdx vIdx r =
      (r.set dIdx (toDatetimeCell (r.getD dIdx Cell.null))).set vIdx
        (upperCell ((r.set dIdx (toDatetimeCell (r.getD dIdx Cell.null))).getD vIdx Cell.null)) :=
  rfl

theorem transformRow_upper_fixed (dIdx vIdx : Nat) (r : List Cell) :
    upperCell ((transformRow dIdx vIdx r).getD vIdx Cell.null) =
      (transformRow dIdx vIdx r).getD vIdx Cell.null := by
  rw [transformRow_def]
  by_cases h : vIdx < (r.set dIdx (toDatetimeCell (r.getD dIdx Cell.null))).length
  · rw [getD_set_self _ vIdx _ Cell.null h]
    exact upperCell_idem _
  · have hlen : (r.set dIdx (toDatetimeCell (r.getD dIdx Cell.null))).length ≤ vIdx :=
      Nat.le_of_not_lt h
    rw [List.set_eq_of_length_le hlen, List.getD_eq_default _ _ hlen]
    rfl

theorem transformRow_fixed (dIdx vIdx : Nat) (r : List Cell)
    (hd : isValidDate (r.getD dIdx Cell.null) = true)
    (hv : upperCell (r.getD vIdx Cell.null) = r.getD vIdx Cell.null) :
    transformRow dIdx vIdx r = r := by
  rw [transformRow_def, valid_toDatetime _ hd, set_getD_self, hv, set_getD_self]

theorem normalizeWith_eq (fd fv : String) (t : RawTable) :
    normalizeWith fd fv t =
      if (t.headers.map (renameHeader fd fv)).count "Date" ≠ 1 then
        Except.error (LoadError.duplicateColumn "Date")
      else if (t.headers.map (renameHeader fd fv)).count "Village" ≠ 1 then
        Except.error (LoadError.duplicateColumn "Village")
      else Except.ok ⟨t.headers.map (renameHeader fd fv),
        (t.rows.map (transformRow
          ((t.headers.map (renameHeader fd fv)).findIdx (fun s => s = "Date"))
          ((t.headers.map (renameHeader fd fv)).findIdx (fun s => s = "Village")))).filter
        (fun r => isValidDate (r.getD
          ((t.headers.map (renameHeader fd fv)).findIdx (fun s => s = "Date")) Cell.null))⟩ :=
  rfl

theorem normalizeWith_ok (fd fv : String) (t y : RawTable)
    (h : normalizeWith fd fv t = Except.ok y) :
    y.headers = t.headers.map (renameHeader fd fv) ∧
    y.headers.count "Date" = 1 ∧
    y.headers.count "Village" = 1 ∧
    y.rows = (t.rows.map (transformRow (y.headers.findIdx (fun s => s = "Date"))
        (y.headers.findIdx (fun s => s = "Village")))).filter
      (fun r => isValidDate (r.getD (y.headers.findIdx (fun s => s = "Date")) Cell.null)) := by
  rw [normalizeWith_eq] at h
  by_cases h1 : (t.headers.map (renameHeader fd fv)).count "Date" ≠ 1
  · rw [if_pos h1] at h
    exact Except.noConfusion h
  · rw [if_neg h1] at h
    by_cases h2 : (t.headers.map (renameHeader fd fv)).count "Village" ≠ 1
    · rw [if_pos h2] at h
      exact Except.noConfusion h
    · rw [if_neg h2] at h
      injection h with h3
      subst h3
      exact ⟨rfl, Decidable.not_not.mp h1, Decidable.not_not.mp h2, rfl⟩

theorem normalizeSurvey_ok (t y : RawTable) (h : normalizeSurvey t = Except.ok y) :
    ∃ fd fv, findFirstColumn dateCandidates t.headers = some fd ∧
      findFirstColumn villageCandidates t.headers = some fv ∧
      normalizeWith fd fv t = Except.ok y := by
  rw [normalizeSurvey_eq t] at h
  cases hfd : findFirstColumn dateCandidates t.headers with
  | none =>
      cases hfv : findFirstColumn villageCandidates t.headers <;>
        rw [hfd, hfv] at h <;> exact Except.noConfusion h
  | some fd =>
      cases hfv : findFirstColumn villageCandidates t.headers with
      | none => rw [hfd, hfv] at h; exact Except.noConfusion h
      | some fv =>
          rw [hfd, hfv] at h
          exact ⟨fd, fv, rfl, rfl, h⟩

/-- C6 amended: every record of the normalized dataset has a valid
(non-null) date, the village cell is upper-cased (a fixed point of the
upper-casing map), and records whose date fails to parse are excluded
entirely — the row count equals the number of transformed input rows with
a parseable date.  (The code does not enforce a non-empty village.) -/
theorem normalize_valid_date_upper_village (t y : RawTable)
    (h : normalizeSurvey t = Except.ok y) :
    (∀ r ∈ y.rows,
      isValidDate (r.getD (y.headers.findIdx (fun s => s = "Date")) Cell.null) = true) ∧
    (∀ r ∈ y.rows,
      upperCell (r.getD (y.headers.findIdx (fun s => s = "Village")) Cell.null) =
        r.getD (y.headers.findIdx (fun s => s = "Village")) Cell.null) ∧
    y.rows.length = (t.rows.map (transformRow (y.headers.findIdx (fun s => s = "Date"))
        (y.headers.findIdx (fun s => s = "Village")))).countP
      (fun r => isValidDate (r.getD (y.headers.findIdx (fun s => s = "Date")) Cell.null)) := by
  obtain ⟨fd, fv, hfd, hfv, hw⟩ := normalizeSurvey_ok t y h
  obtain ⟨hh, hcD, hcV, hrows⟩ := normalizeWith_ok fd fv t y hw
  refine ⟨?_, ?_, ?_⟩
  · intro r hr
    rw [hrows] at hr
    exact (List.mem_filter.mp hr).2
  · intro r hr
    rw [hrows] at hr
    rcases List.mem_map.mp (List.mem_filter.mp hr).1 with ⟨r0, _, rfl⟩
    exact transformRow_upper_fixed _ _ r0
  · rw [hrows, List.countP_eq_length_filter]

/-- C6 counterexample: a record with a valid date but an empty village
string survives normalization with its village still empty, so the claim
that every normalized record has a non-empty village is false. -/
theorem normalize_empty_village_counterexample :
    normalizeSurvey ⟨["Date", "Village"], [[Cell.date 0, Cell.str ""]]⟩ =
      Except.ok ⟨["Date", "Village"], [[Cell.date 0, Cell.str ""]]⟩ ∧
    (((normalizeSurvey ⟨["Date", "Village"], [[Cell.date 0, Cell.str ""]]⟩).toOption.getD
        ⟨[], []⟩).rows.getD 0 []).getD 1 Cell.null = Cell.str "" :=
  ⟨rfl, rfl⟩

/-- Witness for the amended C6 on a two-row table whose second row has an
absent date: the surviving row has a valid date and an upper-cased
village, and exactly one of the two rows is kept. -/
theorem normalize_valid_date_upper_village_witness :
    isValidDate (([Cell.date 7, Cell.str "AB"] : List Cell).getD
      ((RawTable.mk ["Date", "Village"] [[Cell.date 7, Cell.str "AB"]]).headers.findIdx
        (fun s => s = "Date")) Cell.null) = true ∧
    (RawTable.mk ["Date", "Village"] [[Cell.date 7, Cell.str "AB"]]).rows.length =
      ((RawTable.mk ["Date", "Village"]
          [[Cell.date 7, Cell.str "ab"], [Cell.null, Cell.str "x"]]).rows.map
        (transformRow
          ((RawTable.mk ["Date", "Village"]
            [[Cell.date 7, Cell.str "AB"]]).headers.findIdx (fun s => s = "Date"))
          ((RawTable.mk ["Date", "Village"]
            [[Cell.date 7, Cell.str "AB"]]).headers.findIdx (fun s => s = "Village")))).countP
      (fun r => isValidDate (r.getD ((RawTable.mk ["Date", "Village"]
        [[Cell.date 7, Cell.str "AB"]]).headers.findIdx (fun s => s = "Date")) Cell.null)) :=
  ⟨(normalize_valid_date_upper_village
      (RawTable.mk ["Date", "Village"] [[Cell.date 7, Cell.str "ab"], [Cell.null, Cell.str "x"]])
      (RawTable.mk ["Date", "Village"] [[Cell.date 7, Cell.str "AB"]]) rfl).1
      [Cell.date 7, Cell.str "AB"] (by decide),
   (normalize_valid_date_upper_village
      (RawTable.mk ["Date", "Village"] [[Cell.date 7, Cell.str "ab"], [Cell.null, Cell.str "x"]])
      (RawTable.mk ["Date", "Village"] [[Cell.date 7, Cell.str "AB"]]) rfl).2.2⟩

theorem cands_disjoint (a : String) (ha : a ∈ dateCandidates) (b : String)
    (hb : b ∈ villageCandidates) : a ≠ b := by
  fin_cases ha <;> fin_cases hb <;> decide

theorem renameHeader_DV_id (h : String) : renameHeader "Date" "Village" h = h := by
  unfold renameHeader
  by_cases h1 : h = "Date"
  · rw [if_pos h1]
    exact h1.symm
  · rw [if_neg h1]
    by_cases h2 : h = "Village"
    · rw [if_pos h2]
      exact h2.symm
    · rw [if_neg h2]

theorem today_not_in_renamed (fd fv : String) (hs : List String)
    (hfd : findFirstColumn dateCandidates hs = some fd) :
    "today" ∉ hs.map (renameHeader fd fv) := by
  intro hmem
  rcases List.mem_map.mp hmem with ⟨h0, hh0, heq⟩
  unfold renameHeader at heq
  by_cases h1 : h0 = fd
  · rw [if_pos h1] at heq
    exact absurd heq (by decide)
  · rw [if_neg h1] at heq
    by_cases h2 : h0 = fv
    · rw [if_pos h2] at heq
      exact absurd heq (by decide)
    · rw [if_neg h2] at heq
      subst heq
      have hfirst : findFirstColumn dateCandidates hs = some "today" := by
        rw [show dateCandidates = "today" :: ["Date", "date", "Fecha"] from rfl, ffc_cons,
          if_pos hh0]
      rw [hfd] at hfirst
      exact h1 (Option.some.inj hfirst).symm

theorem village_not_in_renamed (fd fv : String) (hs : List String)
    (hfv : findFirstColumn villageCandidates hs = some fv) :
    "village" ∉ hs.map (renameHeader fd fv) := by
  intro hmem
  rcases List.mem_map.mp hmem with ⟨h0, hh0, heq⟩
  unfold renameHeader at heq
  by_cases h1 : h0 = fd
  · rw [if_pos h1] at heq
    exact absurd heq (by decide)
  · rw [if_neg h1] at heq
    by_cases h2 : h0 = fv
    · rw [if_pos h2] at heq
      exact absurd heq (by decide)
    · rw [if_neg h2] at heq
      subst heq
      have hfirst : findFirstColumn villageCandidates hs = some "village" := by
        rw [show villageCandidates = "village" :: ["Village", "Aldea", "Comunidad"] from rfl,
          ffc_cons, if_pos hh0]
      rw [hfv] at hfirst
      exact h2 (Option.some.inj hfirst).symm

theorem ffc_date_renamed (rh : List String) (hnot : "today" ∉ rh) (hin : "Date" ∈ rh) :
    findFirstColumn dateCandidates rh = some "Date" := by
  rw [show dateCandidates = "today" :: "Date" :: ["date", "Fecha"] from rfl, ffc_cons,
    if_neg hnot, ffc_cons, if_pos hin]

theorem ffc_village_renamed (rh : List String) (hnot : "village" ∉ rh)
    (hin : "Village" ∈ rh) :
    findFirstColumn villageCandidates rh = some "Village" := by
  rw [show villageCandidates = "village" :: "Village" :: ["Aldea", "Comunidad"] from rfl,
    ffc_cons, if_neg hnot, ffc_cons, if_pos hin]

/-- C7: normalization is idempotent — a table that `load_survey_data`
normalized successfully normalizes again to exactly itself (the rename
leaves the canonical headers in place, re-parsing an already-parsed date
is the identity, upper-casing an upper-cased village is the identity, and
no further rows are dropped). -/
theorem normalize_idempotent (t y : RawTable) (h : normalizeSurvey t = Except.ok y) :
    normalizeSurvey y = Except.ok y := by
  obtain ⟨fd, fv, hfd, hfv, hw⟩ := normalizeSurvey_ok t y h
  obtain ⟨yh, yr⟩ := y
  obtain ⟨hh, hcD, hcV, hrows⟩ := normalizeWith_ok fd fv t ⟨yh, yr⟩ hw
  dsimp only at hh hcD hcV hrows
  have hfdne : fd ≠ fv :=
    cands_disjoint fd (ffc_mem_cands _ _ _ hfd) fv (ffc_mem_cands _ _ _ hfv)
  have hDin : "Date" ∈ yh := by
    rw [hh]
    refine List.mem_map.mpr ⟨fd, ffc_mem _ _ _ hfd, ?_⟩
    unfold renameHeader
    rw [if_pos rfl]
  have hVin : "Village" ∈ yh := by
    rw [hh]
    refine List.mem_map.mpr ⟨fv, ffc_mem _ _ _ hfv, ?_⟩
    unfold renameHeader
    rw [if_neg (fun he => hfdne he.symm), if_pos rfl]
  have hfd2 : findFirstColumn dateCandidates yh = some "Date" := by
    refine ffc_date_renamed yh ?_ hDin
    rw [hh]
    exact today_not_in_renamed fd fv t.headers hfd
  have hfv2 : findFirstColumn villageCandidates yh = some "Village" := by
    refine ffc_village_renamed yh ?_ hVin
    rw [hh]
    exact village_not_in_renamed fd fv t.headers hfv
  have hvalid : ∀ r ∈ yr,
      isValidDate (r.getD (yh.findIdx (fun s => s = "Date")) Cell.null) = true := by
    intro r hr
    rw [hrows] at hr
    exact (List.mem_filter.mp hr).2
  have hupper : ∀ r ∈ yr,
      upperCell (r.getD (yh.findIdx (fun s => s = "Village")) Cell.null) =
        r.getD (yh.findIdx (fun s => s = "Village")) Cell.null := by
    intro r hr
    rw [hrows] at hr
    rcases List.mem_map.mp (List.mem_filter.mp hr).1 with ⟨r0, _, rfl⟩
    exact transformRow_upper_fixed _ _ r0
  have hmapid : yh.map (renameHeader "Date" "Village") = yh := by
    have h1 : yh.map (renameHeader "Date" "Village") = yh.map id :=
      List.map_congr_left (fun a _ => renameHeader_DV_id a)
    rw [h1, List.map_id]
  rw [normalizeSurvey_eq ⟨yh, yr⟩]
  dsimp only
  rw [hfd2, hfv2]
  show normalizeWith "Date" "Village" (⟨yh, yr⟩ : RawTable) = Except.ok ⟨yh, yr⟩
  rw [normalizeWith_eq]
  dsimp only
  rw [hmapid]
  rw [if_neg (show ¬(yh.count "Date" ≠ 1) from fun hne => hne hcD)]
  rw [if_neg (show ¬(yh.count "Village" ≠ 1) from fun hne => hne hcV)]
  have hmap2 : yr.map (transformRow (yh.findIdx (fun s => s = "Date"))
      (yh.findIdx (fun s => s = "Village"))) = yr := by
    have h1 : yr.map (transformRow (yh.findIdx (fun s => s = "Date"))
        (yh.findIdx (fun s => s = "Village"))) = yr.map id :=
      List.map_congr_left (fun r hr => transformRow_fixed _ _ r (hvalid r hr) (hupper r hr))
    rw [h1, List.map_id]
  rw [hmap2, List.filter_eq_self.mpr hvalid]

/-- Witness for C7: re-normalizing the normalized form of a table with
`today`/`village` headers and one unparseable date reproduces it exactly. -/
theorem normalize_idempotent_witness :
    normalizeSurvey ⟨["Date", "Village", "extra"],
        [[Cell.date 9, Cell.str "AB", Cell.str "z"]]⟩ =
      Except.ok ⟨["Date", "Village", "extra"],
        [[Cell.date 9, Cell.str "AB", Cell.str "z"]]⟩ :=
  normalize_idempotent
    ⟨["today", "village", "extra"],
      [[Cell.date 9, Cell.str "ab", Cell.str "z"], [Cell.str "bad", Cell.str "q", Cell.null]]⟩
    ⟨["Date", "Village", "extra"], [[Cell.date 9, Cell.str "AB", Cell.str "z"]]⟩
    rfl

/-- C8 counterexample: for the header set `[x]` both required fields are
unresolved, yet the raised error message carries only the actual header
list — neither missing field name (`Date`, `Village`) occurs anywhere in
it, against the claim that the error carries the missing field names. -/
theorem schema_error_message_counterexample :
    findFirstColumn dateCandidates ["x"] = none ∧
    findFirstColumn villageCandidates ["x"] = none ∧
    normalizeSurvey ⟨["x"], []⟩ = Except.error (LoadError.missingColumns ["x"]) ∧
    strContains (surveyErrorMessage ["x"]) "Date" = false ∧
    strContains (surveyErrorMessage ["x"]) "Village" = false :=
  ⟨rfl, rfl, rfl, rfl, rfl⟩

/-- C8 amended: when either required field is unresolved against the input
headers, loading fails with the error carrying the full actual header
list (the missing field names are recoverable from it but are not listed
in the error), and the session halts before any aggregation runs. -/
theorem schema_error_headers_halt (t : RawTable)
    (h : findFirstColumn dateCandidates t.headers = none ∨
         findFirstColumn villageCandidates t.headers = none) :
    normalizeSurvey t = Except.error (LoadError.missingColumns t.headers) ∧
    runSession t = none := by
  have herr : normalizeSurvey t = Except.error (LoadError.missingColumns t.headers) := by
    rw [normalizeSurvey_eq t]
    cases hfd : findFirstColumn dateCandidates t.headers with
    | none => cases hfv : findFirstColumn villageCandidates t.headers <;> rfl
    | some fd =>
        cases hfv : findFirstColumn villageCandidates t.headers with
        | none => rfl
        | some fv =>
            rcases h with h | h
            · rw [hfd] at h
              exact Option.noConfusion h
            · rw [hfv] at h
              exact Option.noConfusion h
  refine ⟨herr, ?_⟩
  unfold runSession
  rw [herr]

/-- Witness for the amended C8 at the header set `[x]`. -/
theorem schema_error_headers_halt_witness :
    normalizeSurvey ⟨["x"], []⟩ = Except.error (LoadError.missingColumns ["x"]) ∧
    runSession ⟨["x"], []⟩ = none :=
  schema_error_headers_halt ⟨["x"], []⟩ (Or.inl rfl)

/-- C9 counterexample: selecting the absent farm identifier `F2` yields an
empty collection, and the code does not fail with a data error — it
proceeds, and the downstream map-creation failure is caught as the
section's generic error — so the claimed `DataError` is never produced. -/
theorem empty_selection_counterexample :
    gdfToDisplay [⟨"F1", [(0, 0)]⟩] "F2" = [] ∧
    tab3Run id [⟨"F1", [(0, 0)]⟩] "F2" = Tab3Outcome.mapCreationError ∧
    Tab3Outcome.mapCreationError ≠ Tab3Outcome.dataError :=
  ⟨rfl, rfl, by decide⟩

/-- C9 amended: an empty farm selection is not detected by any explicit
emptiness check — the pipeline proceeds and ends in the caught
map-creation failure of the map section, and no input ever produces a
`DataError`. -/
theorem empty_selection_map_error (proj : ℚ × ℚ → ℚ × ℚ) (gdf : List Farm) (sel : String)
    (h : gdfToDisplay gdf sel = []) :
    tab3Run proj gdf sel = Tab3Outcome.mapCreationError ∧
    ∀ (proj2 : ℚ × ℚ → ℚ × ℚ) (gdf2 : List Farm) (sel2 : String),
      tab3Run proj2 gdf2 sel2 ≠ Tab3Outcome.dataError := by
  constructor
  · simp only [tab3Run]
    rw [h]
    rfl
  · intro proj2 gdf2 sel2
    simp only [tab3Run]
    cases hp : ((gdfToDisplay gdf2 sel2).map (fun f => f.ring.map proj2)).flatten with
    | nil => exact fun hc => Tab3Outcome.noConfusion hc
    | cons p rest => exact fun hc => Tab3Outcome.noConfusion hc

/-- Witness for the amended C9 at a concrete one-farm collection and an
absent identifier. -/
theorem empty_selection_map_error_witness :
    tab3Run id [⟨"F1", [(0, 0)]⟩] "F2" = Tab3Outcome.mapCreationError ∧
    tab3Run id [⟨"F1", [(0, 0)]⟩] "All Farms" ≠ Tab3Outcome.dataError :=
  ⟨(empty_selection_map_error id [⟨"F1", [(0, 0)]⟩] "F2" rfl).1,
   (empty_selection_map_error id [⟨"F1", [(0, 0)]⟩] "F2" rfl).2 id
     [⟨"F1", [(0, 0)]⟩] "All Farms"⟩
